import Mathlib

/-
Verification development for the AWS API key manager deployment tooling
(src/tools/aws-deploy.py, src/tools/cloudformation.py,
src/tools/aws-dns-setup.py, src/tools/configuration.py).

The Python modules are shallowly embedded as Lean definitions.  Python
dictionaries are modelled as insertion-ordered association lists with
Python's assignment/update semantics (assignment to an existing key
replaces the value in place, assignment to a fresh key appends).  The
builtin string `hash` is a per-process salted function, so it is
modelled as an explicit parameter `h : String → Int` threaded through
the template builder.  JSON serialisation (`json.dumps`) is omitted:
all claims concern the resource graph itself, which is modelled
structurally.
-/

set_option autoImplicit false

namespace AwsApiKeyManager

/-! ## Python dictionary model -/

/-- Python `key in dict`. -/
def pyDictContains {α : Type} (d : List (String × α)) (k : String) : Bool :=
  d.any (fun p => p.1 = k)

/-- Python `dict[key] = value`: replace the value in place when the key is
already bound, otherwise append the new binding at the end. -/
def dictSet {α : Type} (d : List (String × α)) (k : String) (v : α) :
    List (String × α) :=
  if pyDictContains d k then d.map (fun p => if p.1 = k then (k, v) else p)
  else d ++ [(k, v)]

/-- Python `a.update(b)` / `{**a, **b}`: fold the bindings of `b` into `a`
in order. -/
def dictUpdate {α : Type} (a b : List (String × α)) : List (String × α) :=
  b.foldl (fun d p => dictSet d p.1 p.2) a

/-- Python `dict[key]` read access (first binding wins; keys built through
`dictSet` are unique). -/
def pyLookup {α : Type} (d : List (String × α)) (k : String) : Option α :=
  (d.find? (fun p => p.1 = k)).map (fun p => p.2)

theorem mem_dictSet {α : Type} {d : List (String × α)} {k : String} {v : α}
    {p : String × α} (hp : p ∈ dictSet d k v) : p ∈ d ∨ p = (k, v) := by
  unfold dictSet at hp
  by_cases hc : pyDictContains d k
  · rw [if_pos hc] at hp
    rcases List.mem_map.mp hp with ⟨q, hq, hfq⟩
    by_cases hk : q.1 = k
    · right
      rw [if_pos hk] at hfq
      exact hfq.symm
    · left
      rw [if_neg hk] at hfq
      exact hfq ▸ hq
  · rw [if_neg hc] at hp
    rcases List.mem_append.mp hp with h | h
    · exact Or.inl h
    · exact Or.inr (List.mem_singleton.mp h)

theorem mem_dictUpdate {α : Type} {p : String × α} :
    ∀ {b a : List (String × α)}, p ∈ dictUpdate a b → p ∈ a ∨ p ∈ b := by
  intro b
  induction b with
  | nil => intro a hp; exact Or.inl hp
  | cons q rest ih =>
    intro a hp
    have := ih (a := dictSet a q.1 q.2) hp
    rcases this with h | h
    · rcases mem_dictSet h with h2 | h2
      · exact Or.inl h2
      · exact Or.inr (by rw [h2]; exact List.mem_cons_self _ _)
    · exact Or.inr (List.mem_cons_of_mem _ h)

theorem mem_dictSet_self {α : Type} (d : List (String × α)) (k : String)
    (v : α) : (k, v) ∈ dictSet d k v := by
  unfold dictSet
  by_cases hc : pyDictContains d k
  · rw [if_pos hc]
    unfold pyDictContains at hc
    rcases List.any_eq_true.mp hc with ⟨q, hq, hk⟩
    refine List.mem_map.mpr ⟨q, hq, ?_⟩
    rw [if_pos (by exact of_decide_eq_true hk)]
  · rw [if_neg hc]
    exact List.mem_append.mpr (Or.inr (List.mem_singleton.mpr rfl))

theorem mem_dictSet_of_ne {α : Type} {d : List (String × α)} {p : String × α}
    (hp : p ∈ d) {k : String} (hk : p.1 ≠ k) (v : α) : p ∈ dictSet d k v := by
  unfold dictSet
  by_cases hc : pyDictContains d k
  · rw [if_pos hc]
    refine List.mem_map.mpr ⟨p, hp, ?_⟩
    rw [if_neg hk]
  · rw [if_neg hc]
    exact List.mem_append.mpr (Or.inl hp)

theorem dictUpdate_singleton {α : Type} (a : List (String × α)) (k : String)
    (v : α) : dictUpdate a [(k, v)] = dictSet a k v := rfl

theorem dictSet_of_not_contains {α : Type} {d : List (String × α)}
    {k : String} (hc : pyDictContains d k = false) (v : α) :
    dictSet d k v = d ++ [(k, v)] := by
  unfold dictSet
  rw [hc]
  simp

/-! ## Python string helpers -/

/-- Worker for `splitSlash`, consuming the character list while building the
current segment. -/
def splitSlashAux : List Char → String → List String
  | [], acc => [acc]
  | c :: rest, acc =>
    if c = '/' then acc :: splitSlashAux rest ""
    else splitSlashAux rest (acc.push c)

/-- Python `s.split("/")`: always returns at least one element, and returns
`[""]` on the empty string. -/
def splitSlash (s : String) : List String :=
  splitSlashAux s.data ""

/-- Python `s.endswith(suffix)`. -/
def pyEndsWith (s suffixStr : String) : Bool :=
  suffixStr.data.isSuffixOf s.data

/-- Python `"%X" % n` for a non-negative value: uppercase hexadecimal with no
leading zeros (and `"0"` for zero). -/
def hexUpper (n : Nat) : String :=
  String.mk ((Nat.toDigits 16 n).map Char.toUpper)

/-! ## JSON-like property values and resource declarations -/

/-- A JSON-like value as appearing in CloudFormation property bags. -/
inductive JVal where
  | str (s : String)
  | int (n : Int)
  | bool (b : Bool)
  | obj (entries : List (String × JVal))
  | arr (items : List JVal)

/-- One CloudFormation resource declaration: the `Type` tag, the
`Properties` bag and the optional `DependsOn` list (absent modelled as `[]`;
a scalar `DependsOn` string is modelled as a singleton list). -/
structure Resource where
  type : String
  properties : List (String × JVal)
  dependsOn : List String := []

/-! ## configuration.py -/

/-- The deployment configuration options of `configuration.py`, embedded as
an explicit record so that claims can quantify over configurations. -/
structure Config where
  API_KEY_TABLE_DEFAULT_NAME : Option String
  API_KEY_TABLE_READ_CAPACITY_UNITS : Int
  API_KEY_TABLE_WRITE_CAPACITY_UNITS : Int
  AWS_S3_DEFAULT_DEPLOYMENT_BUCKET : String
  AWS_LAMBDA_DEFAULT_PACKAGE_NAME : String
  AWS_CLOUD_FORMATION_DEFAULT_STACK_NAME : String
  AWS_CLOUD_FORMATION_DEFAULT_DNS_STACK_NAME : String
  RESOURCE_CUSTOM_DOMAIN_BASE_PATH : String
  RESOURCE_KEY_CREATE_PATH : String
  RESOURCE_KEY_ACCESS_PATH : String
  API_KEY_GENERATION_SIZE : Nat
  AWS_API_KEY_RETENTION_PERIOD : Int
  API_KEY_READ_CAPABILITY_NAME : String
  API_KEY_CREATE_CAPABILITY_NAME : String
  API_KEY_DELETE_CAPABILITY_NAME : String
  API_KEY_RENEWAL_CAPABILITY_NAME : String

/-- The literal option values of `configuration.py`. -/
def defaultConfig : Config where
  API_KEY_TABLE_DEFAULT_NAME := some "ApiKeyTable"
  API_KEY_TABLE_READ_CAPACITY_UNITS := 1
  API_KEY_TABLE_WRITE_CAPACITY_UNITS := 1
  AWS_S3_DEFAULT_DEPLOYMENT_BUCKET := "com-zynaptic-aws-deployment"
  AWS_LAMBDA_DEFAULT_PACKAGE_NAME := "aws-api-key-manager-1.0.0.jar"
  AWS_CLOUD_FORMATION_DEFAULT_STACK_NAME := "aws-api-key-manager"
  AWS_CLOUD_FORMATION_DEFAULT_DNS_STACK_NAME := "aws-api-dns-configuration"
  RESOURCE_CUSTOM_DOMAIN_BASE_PATH := "ApiKeyManager"
  RESOURCE_KEY_CREATE_PATH := "/Create"
  RESOURCE_KEY_ACCESS_PATH := "/Keys/{apiKey}"
  API_KEY_GENERATION_SIZE := 30
  AWS_API_KEY_RETENTION_PERIOD := 2592000
  API_KEY_READ_CAPABILITY_NAME := "com.zynaptic.aws.api.key.read"
  API_KEY_CREATE_CAPABILITY_NAME := "com.zynaptic.aws.api.key.create"
  API_KEY_DELETE_CAPABILITY_NAME := "com.zynaptic.aws.api.key.delete"
  API_KEY_RENEWAL_CAPABILITY_NAME := "com.zynaptic.aws.api.key.renew"

/-! ## cloudformation.py -/

namespace Cloudformation

open AwsApiKeyManager

/-- `createApiKeyCapabilityTable` of cloudformation.py.  The three source
dictionaries merged by the double-splat have pairwise disjoint keys, so the
merge is concatenation. -/
def createApiKeyCapabilityTable (cfg : Config) (databaseName : Option String) :
    List (String × Resource) :=
  let billingMode : List (String × JVal) :=
    if cfg.API_KEY_TABLE_READ_CAPACITY_UNITS > 0 ∧
        cfg.API_KEY_TABLE_WRITE_CAPACITY_UNITS > 0 then
      [("BillingMode", JVal.str "PROVISIONED"),
       ("ProvisionedThroughput", JVal.obj
         [("ReadCapacityUnits", JVal.int cfg.API_KEY_TABLE_READ_CAPACITY_UNITS),
          ("WriteCapacityUnits", JVal.int cfg.API_KEY_TABLE_WRITE_CAPACITY_UNITS)])]
    else
      [("BillingMode", JVal.str "PAY_PER_REQUEST")]
  let tableName : List (String × JVal) :=
    match databaseName with
    | some n => [("TableName", JVal.str n)]
    | none => []
  [("ApiKeyCapabilityTable",
    { type := "AWS::DynamoDB::Table",
      properties :=
        [("AttributeDefinitions", JVal.arr
           [JVal.obj [("AttributeName", JVal.str "apiKey"),
                      ("AttributeType", JVal.str "S")]]),
         ("KeySchema", JVal.arr
           [JVal.obj [("AttributeName", JVal.str "apiKey"),
                      ("KeyType", JVal.str "HASH")]]),
         ("TimeToLiveSpecification", JVal.obj
           [("Enabled", JVal.bool true),
            ("AttributeName", JVal.str "removalTimestamp")])]
        ++ billingMode ++ tableName })]

/-- `createApiKeyManagementLambda` of cloudformation.py (function plus
execution role). -/
def createApiKeyManagementLambda (cfg : Config)
    (deploymentBucket packageName : String) : List (String × Resource) :=
  let lambdaDefinition : List (String × Resource) :=
    [("ApiKeyManagementLambda",
      { type := "AWS::Lambda::Function",
        properties :=
          [("Description", JVal.str "API Key Management Service"),
           ("Runtime", JVal.str "java8.al2"),
           ("MemorySize", JVal.int 256),
           ("Timeout", JVal.int 30),
           ("Handler", JVal.str "com.zynaptic.aws.api.key.manager.ApiHandler"),
           ("Role", JVal.obj [("Fn::GetAtt", JVal.arr
              [JVal.str "ApiKeyManagementLambdaRole", JVal.str "Arn"])]),
           ("Code", JVal.obj [("S3Bucket", JVal.str deploymentBucket),
                              ("S3Key", JVal.str packageName)]),
           ("Environment", JVal.obj
             [("Variables", JVal.obj
               [("AWS_API_KEY_TABLE_NAME",
                 JVal.obj [("Ref", JVal.str "ApiKeyCapabilityTable")]),
                ("AWS_API_RESOURCE_KEY_CREATE_PATH",
                 JVal.str cfg.RESOURCE_KEY_CREATE_PATH),
                ("AWS_API_RESOURCE_KEY_ACCESS_PATH",
                 JVal.str cfg.RESOURCE_KEY_ACCESS_PATH),
                ("AWS_API_KEY_RETENTION_PERIOD",
                 JVal.int cfg.AWS_API_KEY_RETENTION_PERIOD)])])] })]
  let lambdaExecutionRole : List (String × Resource) :=
    [("ApiKeyManagementLambdaRole",
      { type := "AWS::IAM::Role",
        properties :=
          [("AssumeRolePolicyDocument", JVal.obj
             [("Statement", JVal.arr
               [JVal.obj
                 [("Effect", JVal.str "Allow"),
                  ("Principal", JVal.obj
                    [("Service", JVal.arr [JVal.str "lambda.amazonaws.com"])]),
                  ("Action", JVal.str "sts:AssumeRole")]])]),
           ("Policies", JVal.arr
             [JVal.obj
               [("PolicyName", JVal.str "ApiKeyCapabilityAccessPolicy"),
                ("PolicyDocument", JVal.obj
                  [("Statement", JVal.arr
                    [JVal.obj
                      [("Effect", JVal.str "Allow"),
                       ("Action", JVal.arr
                         [JVal.str "dynamodb:PutItem",
                          JVal.str "dynamodb:GetItem",
                          JVal.str "dynamodb:DeleteItem",
                          JVal.str "dynamodb:UpdateItem"]),
                       ("Resource", JVal.obj
                         [("Fn::GetAtt", JVal.arr
                           [JVal.str "ApiKeyCapabilityTable",
                            JVal.str "Arn"])])]])])],
              JVal.obj
               [("PolicyName", JVal.str "ApiKeyManagementLoggingPolicy"),
                ("PolicyDocument", JVal.obj
                  [("Statement", JVal.arr
                    [JVal.obj
                      [("Effect", JVal.str "Allow"),
                       ("Action", JVal.arr
                         [JVal.str "logs:CreateLogGroup",
                          JVal.str "logs:CreateLogStream",
                          JVal.str "logs:PutLogEvents"]),
                       ("Resource", JVal.obj
                         [("Fn::Join", JVal.arr
                           [JVal.str "",
                            JVal.arr
                              [JVal.str "arn:aws:logs:",
                               JVal.obj [("Ref", JVal.str "AWS::Region")],
                               JVal.str ":",
                               JVal.obj [("Ref", JVal.str "AWS::AccountId")],
                               JVal.str ":*"]])])]])])]])] })]
  dictUpdate lambdaDefinition lambdaExecutionRole

/-- The loop body of `createGatewayResource`: one iteration per path
segment, extending the hash source with the segment, deriving the resource
identifier from the salted string hash of the cumulative prefix, and
chaining the parent reference. -/
def createGatewayResourceLoop (h : String → Int) :
    List String → String → JVal → List (String × Resource) →
    List (String × Resource)
  | [], _, _, resourceSet => resourceSet
  | seg :: rest, hashSource, resourceParent, resourceSet =>
    let hashSource2 := hashSource ++ "/" ++ seg
    let resourceId := "ApiKeyRestResource" ++ hexUpper (h hashSource2).natAbs
    let res : Resource :=
      { type := "AWS::ApiGateway::Resource",
        properties :=
          [("RestApiId", JVal.obj [("Ref", JVal.str "ApiKeyRestGateway")]),
           ("ParentId", resourceParent),
           ("PathPart", JVal.str seg)] }
    createGatewayResourceLoop h rest hashSource2
      (JVal.obj [("Ref", JVal.str resourceId)]) (dictSet resourceSet resourceId res)

/-- `createGatewayResource` of cloudformation.py.  The source raises on a
path whose first split component is non-empty (in Python, raising the bare
string actually surfaces as a `TypeError`, still a fatal exception); this is
modelled as an `Except.error`. -/
def createGatewayResource (h : String → Int) (resourcePath : String) :
    Except String (List (String × Resource)) :=
  if (splitSlash resourcePath).headD "" ≠ "" then
    Except.error ("Invalid resource path : " ++ resourcePath)
  else
    Except.ok (createGatewayResourceLoop h (splitSlash resourcePath).tail ""
      (JVal.obj [("Fn::GetAtt", JVal.arr
        [JVal.str "ApiKeyRestGateway", JVal.str "RootResourceId"])]) [])

/-- The integration block shared by the two gateway methods. -/
def restMethodIntegration : JVal :=
  JVal.obj
    [("Type", JVal.str "AWS_PROXY"),
     ("IntegrationHttpMethod", JVal.str "POST"),
     ("Credentials", JVal.obj [("Fn::GetAtt", JVal.arr
        [JVal.str "ApiKeyRestGatewayRole", JVal.str "Arn"])]),
     ("Uri", JVal.obj [("Fn::Join", JVal.arr
        [JVal.str "",
         JVal.arr
           [JVal.str "arn:aws:apigateway:",
            JVal.obj [("Ref", JVal.str "AWS::Region")],
            JVal.str ":lambda:path/2015-03-31/functions/",
            JVal.obj [("Fn::GetAtt", JVal.arr
              [JVal.str "ApiKeyManagementLambda", JVal.str "Arn"])],
            JVal.str "/invocations"]])])]

/-- `createApiKeyRestGateway` of cloudformation.py: the REST gateway, the
path resource trees for the two configured paths, the two methods and the
gateway invocation role, merged in source order. -/
def createApiKeyRestGateway (cfg : Config) (h : String → Int)
    (apiGatewayName stagingName : String) :
    Except String (List (String × Resource)) :=
  let restGatewayDefinition : List (String × Resource) :=
    [("ApiKeyRestGateway",
      { type := "AWS::ApiGateway::RestApi",
        properties :=
          [("Name", JVal.str apiGatewayName),
           ("Description",
            JVal.str ("API Key Management Service (" ++ stagingName ++ ")")),
           ("EndpointConfiguration",
            JVal.obj [("Types", JVal.arr [JVal.str "REGIONAL"])])] })]
  match createGatewayResource h cfg.RESOURCE_KEY_CREATE_PATH,
      createGatewayResource h cfg.RESOURCE_KEY_ACCESS_PATH with
  | Except.error e, _ => Except.error e
  | Except.ok _, Except.error e => Except.error e
  | Except.ok createResources, Except.ok accessResources =>
  let withResources :=
    dictUpdate (dictUpdate restGatewayDefinition createResources) accessResources
  let restKeyCreateMethodDefinition : List (String × Resource) :=
    [("ApiKeyRestCreateMethod",
      { type := "AWS::ApiGateway::Method",
        properties :=
          [("RestApiId", JVal.obj [("Ref", JVal.str "ApiKeyRestGateway")]),
           ("ResourceId", JVal.obj [("Ref", JVal.str
              ("ApiKeyRestResource" ++
               hexUpper (h cfg.RESOURCE_KEY_CREATE_PATH).natAbs))]),
           ("HttpMethod", JVal.str "ANY"),
           ("AuthorizationType", JVal.str "NONE"),
           ("Integration", restMethodIntegration)] })]
  let restKeyAccessMethodDefinition : List (String × Resource) :=
    [("ApiKeyRestAccessMethod",
      { type := "AWS::ApiGateway::Method",
        properties :=
          [("RestApiId", JVal.obj [("Ref", JVal.str "ApiKeyRestGateway")]),
           ("ResourceId", JVal.obj [("Ref", JVal.str
              ("ApiKeyRestResource" ++
               hexUpper (h cfg.RESOURCE_KEY_ACCESS_PATH).natAbs))]),
           ("HttpMethod", JVal.str "ANY"),
           ("AuthorizationType", JVal.str "NONE"),
           ("Integration", restMethodIntegration)] })]
  let restGatewayRole : List (String × Resource) :=
    [("ApiKeyRestGatewayRole",
      { type := "AWS::IAM::Role",
        properties :=
          [("AssumeRolePolicyDocument", JVal.obj
             [("Statement", JVal.arr
               [JVal.obj
                 [("Effect", JVal.str "Allow"),
                  ("Principal", JVal.obj
                    [("Service", JVal.arr
                      [JVal.str "apigateway.amazonaws.com"])]),
                  ("Action", JVal.str "sts:AssumeRole")]])]),
           ("Policies", JVal.arr
             [JVal.obj
               [("PolicyName", JVal.str "ApiKeyManagementLambdaPolicy"),
                ("PolicyDocument", JVal.obj
                  [("Statement", JVal.arr
                    [JVal.obj
                      [("Effect", JVal.str "Allow"),
                       ("Action", JVal.str "lambda:InvokeFunction"),
                       ("Resource", JVal.obj
                         [("Fn::GetAtt", JVal.arr
                           [JVal.str "ApiKeyManagementLambda",
                            JVal.str "Arn"])])]])])]])] })]
  Except.ok (dictUpdate
    (dictUpdate (dictUpdate withResources restKeyCreateMethodDefinition)
      restKeyAccessMethodDefinition) restGatewayRole)

/-- The deployment-stage resource declaration of
`createApiGatewayDeployment`. -/
def apiGatewayDeploymentResource (stagingName : String) : Resource :=
  { type := "AWS::ApiGateway::Deployment",
    dependsOn := ["ApiKeyRestCreateMethod", "ApiKeyRestAccessMethod"],
    properties :=
      [("RestApiId", JVal.obj [("Ref", JVal.str "ApiKeyRestGateway")]),
       ("StageName", JVal.str stagingName)] }

/-- `createApiGatewayDeployment` of cloudformation.py. -/
def createApiGatewayDeployment (stagingName : String) :
    List (String × Resource) :=
  [("ApiKeyRestGatewayDeployment", apiGatewayDeploymentResource stagingName)]

/-- `createApiCustomDomain` of cloudformation.py (the base path mapping used
by the deployment stack when a custom domain is supplied; the scalar
`DependsOn` string is modelled as a singleton list). -/
def createApiCustomDomain (cfg : Config)
    (domainName deploymentStage : String) : List (String × Resource) :=
  [("ApiKeyRestGatewayMapping",
    { type := "AWS::ApiGateway::BasePathMapping",
      dependsOn := ["ApiKeyRestGatewayDeployment"],
      properties :=
        [("DomainName", JVal.str domainName),
         ("BasePath", JVal.str cfg.RESOURCE_CUSTOM_DOMAIN_BASE_PATH),
         ("RestApiId", JVal.obj [("Ref", JVal.str "ApiKeyRestGateway")]),
         ("Stage", JVal.str deploymentStage)] })]

/-- `createTemplate` of cloudformation.py, producing the `Resources` mapping
of the template.  JSON serialisation (and the `doFormat` switch) is omitted:
the claims concern the resource graph. -/
def createTemplate (cfg : Config) (h : String → Int)
    (databaseName : Option String)
    (deploymentBucket packageName apiGatewayName deploymentStage : String)
    (domainName : Option String) :
    Except String (List (String × Resource)) :=
  match createApiKeyRestGateway cfg h apiGatewayName deploymentStage with
  | Except.error e => Except.error e
  | Except.ok gatewayResources =>
    let resources := dictUpdate [] (createApiKeyCapabilityTable cfg databaseName)
    let resources :=
      dictUpdate resources (createApiKeyManagementLambda cfg deploymentBucket packageName)
    let resources := dictUpdate resources gatewayResources
    let resources := dictUpdate resources (createApiGatewayDeployment deploymentStage)
    match domainName with
    | some d =>
      Except.ok (dictUpdate resources (createApiCustomDomain cfg d deploymentStage))
    | none => Except.ok resources

end Cloudformation

/-! ## aws-deploy.py -/

namespace AwsDeploy

open AwsApiKeyManager

/-- The Python value kinds that can reach the attribute codec.  The
supported kinds are strings, booleans, numbers, dictionaries and lists;
`pyNone` and `bytes` stand for the unsupported kinds (Python `None` and
binary blobs).  IEEE floats are outside this embedding (the source treats
`int` and `float` in one branch via `str(value)`; only integers are
modelled). -/
inductive PyVal where
  | str (s : String)
  | bool (b : Bool)
  | int (n : Int)
  | dict (entries : List (String × PyVal))
  | list (items : List PyVal)
  | pyNone
  | bytes (blob : List Nat)

/-- The possible results of `formatDynamoAttr`: a single-key tagged DynamoDB
attribute, or the Python `None` that the source function implicitly returns
when every `isinstance` branch fails (`pyNone`). -/
inductive AttrVal where
  | S (s : String)
  | BOOL (b : Bool)
  | N (s : String)
  | M (entries : List (String × AttrVal))
  | L (items : List AttrVal)
  | pyNone

mutual

/-- `formatDynamoAttr` of aws-deploy.py.  The `isinstance` chain checks
`str`, then `bool` (before `int`, so booleans are never numbers), then
`int`/`float` via `str(value)`, then `dict`, then `list`; with no `else`
branch the function falls through and returns Python `None` (`pyNone`). -/
def formatDynamoAttr : PyVal → AttrVal
  | PyVal.str s => AttrVal.S s
  | PyVal.bool b => AttrVal.BOOL b
  | PyVal.int n => AttrVal.N (toString n)
  | PyVal.dict d => AttrVal.M (mapToDynamoAttrs d)
  | PyVal.list l => AttrVal.L (formatDynamoAttrList l)
  | PyVal.pyNone => AttrVal.pyNone
  | PyVal.bytes _ => AttrVal.pyNone

/-- `mapToDynamoAttrs` of aws-deploy.py: iterate over the dictionary items
in insertion order and format each value.  Python dictionary keys are
unique, so the assignment loop is a map over the entry list. -/
def mapToDynamoAttrs : List (String × PyVal) → List (String × AttrVal)
  | [] => []
  | (k, v) :: rest => (k, formatDynamoAttr v) :: mapToDynamoAttrs rest

/-- The `for listItem in value` loop of `formatDynamoAttr`: format every
list element in order (an unsupported element contributes a `pyNone`). -/
def formatDynamoAttrList : List PyVal → List AttrVal
  | [] => []
  | v :: rest => formatDynamoAttr v :: formatDynamoAttrList rest

end

/-- One `if name not in capabilitySet: capabilitySet[name] = value`
statement of `main` (aws-deploy.py lines 416-423). -/
def addCapabilityIfAbsent (capabilitySet : List (String × PyVal))
    (capabilityName : String) (value : PyVal) : List (String × PyVal) :=
  if pyDictContains capabilitySet capabilityName then capabilitySet
  else dictSet capabilitySet capabilityName value

/-- The capability-set merge of `main` (aws-deploy.py lines 416-423): each
of the create/read/delete capability names is added only when absent, the
create capability with `{"capabilityLock": False}` and the other two with
an empty property bag, in that order. -/
def includeRequiredCapabilities (cfg : Config)
    (capabilitySet : List (String × PyVal)) : List (String × PyVal) :=
  addCapabilityIfAbsent
    (addCapabilityIfAbsent
      (addCapabilityIfAbsent capabilitySet cfg.API_KEY_CREATE_CAPABILITY_NAME
        (PyVal.dict [("capabilityLock", PyVal.bool false)]))
      cfg.API_KEY_READ_CAPABILITY_NAME (PyVal.dict []))
    cfg.API_KEY_DELETE_CAPABILITY_NAME (PyVal.dict [])

/-- The names derived by `main` before any remote call. -/
structure DerivedNames where
  stackName : String
  databaseName : String
  apiGatewayName : String
  domainName : Option String
deriving DecidableEq

/-- The stage-name transform of `main` (aws-deploy.py lines 348-360): for
the `"production"` stage all names pass through unchanged; for any other
stage the stack, database and gateway names gain a `-{stage}` suffix and a
supplied domain name gains a `{stage}.` prefix.  A pure function of the
command-line parameters, evaluated before the pre-deployment checks. -/
def deriveStageNames (deploymentStage stackArg databaseArg gatewayArg : String)
    (domainArg : Option String) : DerivedNames :=
  if deploymentStage = "production" then
    { stackName := stackArg, databaseName := databaseArg,
      apiGatewayName := gatewayArg, domainName := domainArg }
  else
    { stackName := stackArg ++ "-" ++ deploymentStage,
      databaseName := databaseArg ++ "-" ++ deploymentStage,
      apiGatewayName := gatewayArg ++ "-" ++ deploymentStage,
      domainName := domainArg.map (fun d => deploymentStage ++ "." ++ d) }

/-- Python `exit(arg)`: `exit()` with no argument raises
`SystemExit(None)`, which terminates the interpreter with process exit
status 0; an integer argument becomes the exit status. -/
def pyExitStatus (arg : Option Int) : Int :=
  match arg with
  | some n => n
  | none => 0

/-- The top-level `try/except Exception` handler shared by aws-deploy.py
and aws-dns-setup.py: on any failure the exception text is printed and
`exit()` is called with no argument.  The result is the list of printed
lines paired with the process exit status. -/
def topLevelExceptionHandler (outcome : Except String Unit) :
    List String × Int :=
  match outcome with
  | Except.ok _ => ([], 0)
  | Except.error e => ([e], pyExitStatus none)

end AwsDeploy

/-! ## aws-dns-setup.py -/

namespace AwsDnsSetup

open AwsApiKeyManager

/-- One entry of the Route53 `list-hosted-zones` response. -/
structure HostedZone where
  Name : String
  Id : String
deriving DecidableEq

/-- The suffix test of `checkDnsRegistration`: the fully qualified domain
(`domainName + "."`) ends with `"." + zone.Name`. -/
def isMatchingZone (domainName : String) (z : HostedZone) : Bool :=
  pyEndsWith (domainName ++ ".") ("." ++ z.Name)

/-- `checkDnsRegistration` of aws-dns-setup.py: scan the hosted-zone list
in order and take the first suffix match (`break`), then strip the path
component with `split("/")[-1]`.  When no zone matches, the local variable
is never assigned and the following `assert` line raises (in CPython a
`NameError`), a fatal failure modelled as `none`. -/
def checkDnsRegistration (domainName : String) (hostedZones : List HostedZone) :
    Option String :=
  match hostedZones.find? (isMatchingZone domainName) with
  | some z => some ((splitSlash z.Id).getLastD "")
  | none => none

/-- `createApiCustomDomain` of aws-dns-setup.py: TLS certificate, regional
custom-domain declaration and alias record (scalar `DependsOn` modelled as a
singleton list). -/
def createApiCustomDomain (domainName dnsHostedZoneId : String) :
    List (String × Resource) :=
  let customDomainCert : List (String × Resource) :=
    [("ApiGatewayCert",
      { type := "AWS::CertificateManager::Certificate",
        properties :=
          [("DomainName", JVal.str domainName),
           ("ValidationMethod", JVal.str "DNS"),
           ("DomainValidationOptions", JVal.arr
             [JVal.obj [("DomainName", JVal.str domainName),
                        ("HostedZoneId", JVal.str dnsHostedZoneId)]])] })]
  let customDomainDefinition : List (String × Resource) :=
    [("ApiGatewayDomain",
      { type := "AWS::ApiGateway::DomainName",
        properties :=
          [("DomainName", JVal.str domainName),
           ("RegionalCertificateArn",
            JVal.obj [("Ref", JVal.str "ApiGatewayCert")]),
           ("EndpointConfiguration",
            JVal.obj [("Types", JVal.arr [JVal.str "REGIONAL"])]),
           ("SecurityPolicy", JVal.str "TLS_1_2")] })]
  let dnsRecordDefinition : List (String × Resource) :=
    [("ApiGatewayDnsRecord",
      { type := "AWS::Route53::RecordSet",
        dependsOn := ["ApiGatewayDomain"],
        properties :=
          [("Type", JVal.str "A"),
           ("AliasTarget", JVal.obj
             [("DNSName", JVal.obj [("Fn::GetAtt", JVal.arr
                [JVal.str "ApiGatewayDomain",
                 JVal.str "RegionalDomainName"])]),
              ("HostedZoneId", JVal.obj [("Fn::GetAtt", JVal.arr
                [JVal.str "ApiGatewayDomain",
                 JVal.str "RegionalHostedZoneId"])])]),
           ("HostedZoneId", JVal.str dnsHostedZoneId),
           ("Name", JVal.str domainName)] })]
  dictUpdate (dictUpdate customDomainCert customDomainDefinition)
    dnsRecordDefinition

/-- The template-building part of `main` of aws-dns-setup.py: zone
resolution runs first, so when no hosted zone matches the run fails before
any template resources are constructed or written. -/
def dnsSetupMain (domainName : String) (hostedZones : List HostedZone) :
    Except String (List (String × Resource)) :=
  match checkDnsRegistration domainName hostedZones with
  | some dnsHostedZoneId =>
    Except.ok (dictUpdate [] (createApiCustomDomain domainName dnsHostedZoneId))
  | none =>
    Except.error ("Failed to find matching Route53 entry for " ++ domainName)

end AwsDnsSetup

/-! ## Spec-side definition for the DNS zone-resolution refinement check -/

/-- Modelled from the spec (refinement comparison only): among the hosted
zones whose name suffix-matches the domain, keep the most specific one,
that is the matching zone with the longest zone name (later entries win
ties), and return its identifier with the path prefix stripped.  This
follows the spec words "resolves the most specific matching hosted zone
... by suffix match"; the source function is `checkDnsRegistration`. -/
def mostSpecificZoneId (domainName : String)
    (hostedZones : List AwsDnsSetup.HostedZone) : Option String :=
  match hostedZones.filter (AwsDnsSetup.isMatchingZone domainName) with
  | [] => none
  | z :: rest =>
    let best := rest.foldl
      (fun a b => if b.Name.length > a.Name.length then b else a) z
    some ((splitSlash best.Id).getLastD "")

/-! ## Helper lemmas -/

theorem push_ne_empty (s : String) (c : Char) : s.push c ≠ "" := by
  intro hEq
  have hdata := congrArg String.data hEq
  simp [String.push] at hdata

theorem splitSlashAux_headD_eq_empty :
    ∀ (l : List Char) (acc : String),
      ((splitSlashAux l acc).headD "" = "" ↔
        acc = "" ∧ (l = [] ∨ l.headD ' ' = '/')) := by
  intro l
  induction l with
  | nil => intro acc; simp [splitSlashAux]
  | cons c rest ih =>
    intro acc
    by_cases hc : c = '/'
    · subst hc
      simp [splitSlashAux]
    · rw [show splitSlashAux (c :: rest) acc =
          (if c = '/' then acc :: splitSlashAux rest ""
           else splitSlashAux rest (acc.push c)) from rfl]
      rw [if_neg hc]
      rw [ih (acc.push c)]
      constructor
      · rintro ⟨hpush, -⟩
        exact absurd hpush (push_ne_empty acc c)
      · rintro ⟨-, hor⟩
        rcases hor with h | h
        · exact absurd h (List.cons_ne_nil c rest)
        · simp at h
          exact absurd h hc

/-- The list of lemma-friendly characterisations of `mapToDynamoAttrs`:
iterating the dictionary items is a map over the entry list. -/
theorem mapToDynamoAttrs_eq_map (d : List (String × AwsDeploy.PyVal)) :
    AwsDeploy.mapToDynamoAttrs d =
      d.map (fun p => (p.1, AwsDeploy.formatDynamoAttr p.2)) := by
  induction d with
  | nil => rfl
  | cons p rest ih =>
    cases p with
    | mk k v => simp [AwsDeploy.mapToDynamoAttrs, ih]

/-- The list branch of the codec is a map over the list elements. -/
theorem formatDynamoAttrList_eq_map (l : List AwsDeploy.PyVal) :
    AwsDeploy.formatDynamoAttrList l = l.map AwsDeploy.formatDynamoAttr := by
  induction l with
  | nil => rfl
  | cons v rest ih => simp [AwsDeploy.formatDynamoAttrList, ih]

theorem pyDictContains_iff_isSome {α : Type} (d : List (String × α))
    (k : String) : pyDictContains d k = true ↔ (pyLookup d k).isSome := by
  induction d with
  | nil => simp [pyDictContains, pyLookup]
  | cons p rest ih =>
    by_cases hk : p.1 = k
    · simp [pyDictContains, pyLookup, List.find?, hk]
    · have hd : decide (p.1 = k) = false := decide_eq_false hk
      simp only [pyDictContains, List.any_cons, pyLookup, List.find?, hd,
        Bool.false_or] at *
      exact ih

theorem pyDictContains_false_iff {α : Type} (d : List (String × α))
    (k : String) : pyDictContains d k = false ↔ k ∉ d.map Prod.fst := by
  rw [← Bool.not_eq_true]
  unfold pyDictContains
  rw [List.any_eq_true]
  simp

theorem pyLookup_append_of_isSome {α : Type} {a : List (String × α)}
    {k : String} (h : (pyLookup a k).isSome) (b : List (String × α)) :
    pyLookup (a ++ b) k = pyLookup a k := by
  induction a with
  | nil => simp [pyLookup] at h
  | cons p rest ih =>
    by_cases hk : p.1 = k
    · simp [pyLookup, List.find?, hk]
    · have hd : decide (p.1 = k) = false := decide_eq_false hk
      simp only [pyLookup, List.cons_append, List.append_eq, List.find?,
        hd] at *
      exact ih h

theorem pyDictContains_append {α : Type} (a b : List (String × α))
    (k : String) : pyDictContains (a ++ b) k =
      (pyDictContains a k || pyDictContains b k) := by
  unfold pyDictContains
  exact List.any_append

theorem addCapabilityIfAbsent_lookup (cs : List (String × AwsDeploy.PyVal))
    (n : String) (v : AwsDeploy.PyVal) (k : String)
    (hk : pyDictContains cs k = true) :
    pyLookup (AwsDeploy.addCapabilityIfAbsent cs n v) k = pyLookup cs k ∧
    pyDictContains (AwsDeploy.addCapabilityIfAbsent cs n v) k = true := by
  unfold AwsDeploy.addCapabilityIfAbsent
  by_cases hc : pyDictContains cs n
  · rw [if_pos hc]
    exact ⟨rfl, hk⟩
  · rw [if_neg hc, dictSet_of_not_contains (by simpa using hc)]
    constructor
    · exact pyLookup_append_of_isSome
        ((pyDictContains_iff_isSome cs k).mp hk) _
    · rw [pyDictContains_append, hk]
      rfl

theorem addCapabilityIfAbsent_nodup (cs : List (String × AwsDeploy.PyVal))
    (n : String) (v : AwsDeploy.PyVal)
    (h : (cs.map Prod.fst).Nodup) :
    ((AwsDeploy.addCapabilityIfAbsent cs n v).map Prod.fst).Nodup := by
  unfold AwsDeploy.addCapabilityIfAbsent
  by_cases hc : pyDictContains cs n
  · rw [if_pos hc]
    exact h
  · rw [if_neg hc, dictSet_of_not_contains (by simpa using hc)]
    rw [List.map_append]
    rw [List.nodup_append]
    refine ⟨h, List.nodup_singleton n, ?_⟩
    intro x hx hx1
    have hn : n ∉ cs.map Prod.fst :=
      (pyDictContains_false_iff cs n).mp (by simpa using hc)
    simp at hx1
    exact hn (hx1 ▸ hx)

/-- The resource identifiers of a generated template, in declaration
order. -/
def templateIds (t : Except String (List (String × Resource))) : List String :=
  (t.toOption.getD []).map Prod.fst

/-! ## Claim theorems -/

/-- C1 — the Attribute Codec does NOT fail loudly on unsupported value
kinds: `formatDynamoAttr` falls through every `isinstance` branch and
silently returns Python `None` (modelled as `AttrVal.pyNone`), and
`mapToDynamoAttrs` stores that `None` as the attribute value of the
record, so an unsupported value is silently turned into a JSON `null`
rather than raising a fatal codec error.  This refutes the claimed
fail-loudly behaviour and supports the `code_bug` status. -/
theorem c1CodecSilentNoneFallthrough :
    AwsDeploy.formatDynamoAttr AwsDeploy.PyVal.pyNone = AwsDeploy.AttrVal.pyNone ∧
    (∀ blob, AwsDeploy.formatDynamoAttr (AwsDeploy.PyVal.bytes blob) =
      AwsDeploy.AttrVal.pyNone) ∧
    AwsDeploy.mapToDynamoAttrs [("capabilitySet", AwsDeploy.PyVal.pyNone)] =
      [("capabilitySet", AwsDeploy.AttrVal.pyNone)] :=
  ⟨rfl, fun _ => rfl, rfl⟩

/-- C2 — the gateway-resource identifiers are NOT stable across runs: they
are derived as `"ApiKeyRestResource%X" % abs(hash(prefix))` from Python's
builtin string hash, which is salted per interpreter process.  Two
template builds that differ only in the ambient string-hash function (two
interpreter runs with different hash seeds) produce different resource
identifier lists, refuting cross-run determinism and supporting the
`code_bug` status. -/
theorem c2GatewayIdsDependOnHashSeed :
    templateIds (Cloudformation.createTemplate defaultConfig (fun _ => 0)
      (some "ApiKeyTable") "com-zynaptic-aws-deployment"
      "aws-api-key-manager-1.0.0.jar" "ApiKeyManager" "production" none) ≠
    templateIds (Cloudformation.createTemplate defaultConfig (fun _ => 1)
      (some "ApiKeyTable") "com-zynaptic-aws-deployment"
      "aws-api-key-manager-1.0.0.jar" "ApiKeyManager" "production" none) := by
  decide

/-- C3 — for every supported value the Attribute Codec produces exactly the
tagged wire form: strings become `S`, booleans become `BOOL` (checked
before the number branch, so `true` is never a number), integers become
their decimal string under `N`, dictionaries recurse under `M` preserving
keys and order, lists recurse in order under `L`; in particular the three
example encodings of the claim hold.  Determinism is inherent: the codec
is a pure function of the value. -/
theorem c3CodecTaggedWireForm :
    (∀ s, AwsDeploy.formatDynamoAttr (AwsDeploy.PyVal.str s) =
      AwsDeploy.AttrVal.S s) ∧
    (∀ b, AwsDeploy.formatDynamoAttr (AwsDeploy.PyVal.bool b) =
      AwsDeploy.AttrVal.BOOL b) ∧
    (∀ n : Int, AwsDeploy.formatDynamoAttr (AwsDeploy.PyVal.int n) =
      AwsDeploy.AttrVal.N (toString n)) ∧
    (∀ d, AwsDeploy.formatDynamoAttr (AwsDeploy.PyVal.dict d) =
      AwsDeploy.AttrVal.M
        (d.map (fun p => (p.1, AwsDeploy.formatDynamoAttr p.2)))) ∧
    (∀ l, AwsDeploy.formatDynamoAttr (AwsDeploy.PyVal.list l) =
      AwsDeploy.AttrVal.L (l.map AwsDeploy.formatDynamoAttr)) ∧
    AwsDeploy.formatDynamoAttr (AwsDeploy.PyVal.bool true) =
      AwsDeploy.AttrVal.BOOL true ∧
    AwsDeploy.formatDynamoAttr (AwsDeploy.PyVal.int 3) =
      AwsDeploy.AttrVal.N "3" ∧
    AwsDeploy.formatDynamoAttr
      (AwsDeploy.PyVal.dict
        [("a", AwsDeploy.PyVal.list
          [AwsDeploy.PyVal.int 1, AwsDeploy.PyVal.str "x"])]) =
      AwsDeploy.AttrVal.M
        [("a", AwsDeploy.AttrVal.L
          [AwsDeploy.AttrVal.N "1", AwsDeploy.AttrVal.S "x"])] := by
  refine ⟨fun s => rfl, fun b => rfl, fun n => rfl, ?_, ?_, rfl, rfl, rfl⟩
  · intro d
    rw [show AwsDeploy.formatDynamoAttr (AwsDeploy.PyVal.dict d) =
      AwsDeploy.AttrVal.M (AwsDeploy.mapToDynamoAttrs d) from rfl]
    rw [mapToDynamoAttrs_eq_map]
  · intro l
    rw [show AwsDeploy.formatDynamoAttr (AwsDeploy.PyVal.list l) =
      AwsDeploy.AttrVal.L (AwsDeploy.formatDynamoAttrList l) from rfl]
    rw [formatDynamoAttrList_eq_map]

/-- C6 — the stage-name transform: for every stage other than
`"production"` the stack, table and gateway names gain a `-{stage}`
suffix and a supplied custom domain gains a `{stage}.` prefix; for the
`"production"` stage all names pass through unchanged.  The transform is a
pure function of the command-line parameters (applied in `main` before the
pre-deployment checks and every remote call). -/
theorem c6StageNameSuffixing (deploymentStage stackArg databaseArg gatewayArg :
    String) (domainArg : Option String) :
    (deploymentStage ≠ "production" →
      AwsDeploy.deriveStageNames deploymentStage stackArg databaseArg
          gatewayArg domainArg =
        { stackName := stackArg ++ "-" ++ deploymentStage,
          databaseName := databaseArg ++ "-" ++ deploymentStage,
          apiGatewayName := gatewayArg ++ "-" ++ deploymentStage,
          domainName :=
            domainArg.map (fun d => deploymentStage ++ "." ++ d) }) ∧
    (deploymentStage = "production" →
      AwsDeploy.deriveStageNames deploymentStage stackArg databaseArg
          gatewayArg domainArg =
        { stackName := stackArg, databaseName := databaseArg,
          apiGatewayName := gatewayArg, domainName := domainArg }) := by
  constructor
  · intro hne
    rw [AwsDeploy.deriveStageNames, if_neg hne]
  · intro heq
    rw [AwsDeploy.deriveStageNames, if_pos heq]

/-- Witness for C6 at the concrete stage names of the spec scenario. -/
theorem c6StageNameSuffixingWitness :
    AwsDeploy.deriveStageNames "testing" "X" "Y" "Z" (some "example.com") =
      { stackName := "X-testing", databaseName := "Y-testing",
        apiGatewayName := "Z-testing",
        domainName := some "testing.example.com" } ∧
    AwsDeploy.deriveStageNames "production" "X" "Y" "Z" (some "example.com") =
      { stackName := "X", databaseName := "Y", apiGatewayName := "Z",
        domainName := some "example.com" } := by
  constructor
  · exact ((c6StageNameSuffixing "testing" "X" "Y" "Z"
      (some "example.com")).1 (by decide)).trans (by decide)
  · exact ((c6StageNameSuffixing "production" "X" "Y" "Z"
      (some "example.com")).2 rfl).trans (by decide)

/-- C9 — failures are surfaced but the exit status is ZERO, not non-zero:
the shared top-level handler runs `print(e); exit()`, and `exit()` with no
argument raises `SystemExit(None)`, terminating the process with status 0.
The descriptive message is printed, and nothing is retried, but the
non-zero-exit part of the claim fails, supporting the `code_bug`
status. -/
theorem c9HandlerPrintsButExitsZero :
    ∀ msg : String,
      AwsDeploy.topLevelExceptionHandler (Except.error msg) = ([msg], 0) ∧
      (AwsDeploy.topLevelExceptionHandler (Except.error msg)).2 =
        AwsDeploy.pyExitStatus none :=
  fun _ => ⟨rfl, rfl⟩

/-- C10 — `createGatewayResource` applied to the empty-string path raises
no error and returns an empty resource set, because `"".split("/")` is
`[""]` whose first element passes the malformed-path check; the check
rejects exactly the non-empty paths whose first character is not `/`. -/
theorem c10EmptyPathYieldsNoResources :
    (∀ h : String → Int,
      Cloudformation.createGatewayResource h "" = Except.ok []) ∧
    (∀ (h : String → Int) (p : String),
      (∃ msg, Cloudformation.createGatewayResource h p = Except.error msg) ↔
        (p ≠ "" ∧ p.data.headD '/' ≠ '/')) := by
  constructor
  · intro h
    rfl
  · intro h p
    have hhead : ((splitSlash p).headD "" = "") ↔
        (p.data = [] ∨ p.data.headD ' ' = '/') := by
      simpa [splitSlash] using splitSlashAux_headD_eq_empty p.data ""
    have hstep : (∃ msg,
        Cloudformation.createGatewayResource h p = Except.error msg) ↔
        ¬ ((splitSlash p).headD "" = "") := by
      unfold Cloudformation.createGatewayResource
      by_cases hcond : (splitSlash p).headD "" = ""
      · rw [if_neg (not_not_intro hcond)]
        constructor
        · rintro ⟨msg, hmsg⟩
          exact Except.noConfusion hmsg
        · intro hne
          exact absurd hcond hne
      · rw [if_pos hcond]
        constructor
        · intro _
          exact hcond
        · intro _
          exact ⟨_, rfl⟩
    rw [hstep, hhead, not_or]
    cases hdata : p.data with
    | nil =>
      have hpe : p = "" := String.ext (by rw [hdata])
      simp [hpe]
    | cons c rest =>
      have hpne : p ≠ "" := by
        intro he
        rw [he] at hdata
        exact List.noConfusion hdata
      simp [hpne]

theorem find?_eq_some_of_first {α : Type} (p : α → Bool) :
    ∀ (l : List α) (i : Nat) (a : α), l[i]? = some a → p a = true →
      (∀ (j : Nat) (b : α), j < i → l[j]? = some b → p b = false) →
      l.find? p = some a := by
  intro l
  induction l with
  | nil =>
    intro i a ha _ _
    simp at ha
  | cons x xs ih =>
    intro i a ha hpa hprev
    cases i with
    | zero =>
      simp at ha
      subst ha
      exact List.find?_cons_of_pos _ hpa
    | succ n =>
      have hx : p x = false := hprev 0 x (Nat.succ_pos n) (by simp)
      rw [List.find?_cons_of_neg _ (by rw [hx]; exact Bool.false_ne_true)]
      refine ih n a (by simpa using ha) hpa ?_
      intro j b hj hb
      exact hprev (j + 1) b (Nat.succ_lt_succ hj) (by simpa using hb)

/-- C5 — the record-write step merges the seed capability set with the
three always-required capabilities only when each is absent: the concrete
seed `{"custom.cap": {}}` yields exactly the four expected entries in
insertion order, with the create capability carrying
`{"capabilityLock": false}`; and in general every key already present in
the seed keeps its value (no overwrite) and no key is duplicated. -/
theorem c5CapabilitySetMerge :
    AwsDeploy.includeRequiredCapabilities defaultConfig
        [("custom.cap", AwsDeploy.PyVal.dict [])] =
      [("custom.cap", AwsDeploy.PyVal.dict []),
       ("com.zynaptic.aws.api.key.create",
        AwsDeploy.PyVal.dict [("capabilityLock", AwsDeploy.PyVal.bool false)]),
       ("com.zynaptic.aws.api.key.read", AwsDeploy.PyVal.dict []),
       ("com.zynaptic.aws.api.key.delete", AwsDeploy.PyVal.dict [])] ∧
    (∀ (cfg : Config) (cs : List (String × AwsDeploy.PyVal)) (k : String),
      pyDictContains cs k = true →
      pyLookup (AwsDeploy.includeRequiredCapabilities cfg cs) k =
        pyLookup cs k) ∧
    (∀ (cfg : Config) (cs : List (String × AwsDeploy.PyVal)),
      (cs.map Prod.fst).Nodup →
      ((AwsDeploy.includeRequiredCapabilities cfg cs).map Prod.fst).Nodup) := by
  refine ⟨rfl, ?_, ?_⟩
  · intro cfg cs k hk
    unfold AwsDeploy.includeRequiredCapabilities
    obtain ⟨h1, hk1⟩ := addCapabilityIfAbsent_lookup cs
      cfg.API_KEY_CREATE_CAPABILITY_NAME
      (AwsDeploy.PyVal.dict [("capabilityLock", AwsDeploy.PyVal.bool false)])
      k hk
    obtain ⟨h2, hk2⟩ := addCapabilityIfAbsent_lookup _
      cfg.API_KEY_READ_CAPABILITY_NAME (AwsDeploy.PyVal.dict []) k hk1
    obtain ⟨h3, -⟩ := addCapabilityIfAbsent_lookup _
      cfg.API_KEY_DELETE_CAPABILITY_NAME (AwsDeploy.PyVal.dict []) k hk2
    exact h3.trans (h2.trans h1)
  · intro cfg cs hnd
    unfold AwsDeploy.includeRequiredCapabilities
    exact addCapabilityIfAbsent_nodup _ _ _
      (addCapabilityIfAbsent_nodup _ _ _
        (addCapabilityIfAbsent_nodup _ _ _ hnd))

/-- Witness for C5: a seed that already binds the create capability (with
the lock set) keeps its own value after the merge. -/
theorem c5CapabilitySetMergeWitness :
    pyLookup (AwsDeploy.includeRequiredCapabilities defaultConfig
        [("com.zynaptic.aws.api.key.create",
          AwsDeploy.PyVal.dict [("capabilityLock", AwsDeploy.PyVal.bool true)])])
      "com.zynaptic.aws.api.key.create" =
      some (AwsDeploy.PyVal.dict
        [("capabilityLock", AwsDeploy.PyVal.bool true)]) := by
  have h := c5CapabilitySetMerge.2.1 defaultConfig
    [("com.zynaptic.aws.api.key.create",
      AwsDeploy.PyVal.dict [("capabilityLock", AwsDeploy.PyVal.bool true)])]
    "com.zynaptic.aws.api.key.create" rfl
  exact h.trans rfl

/-- C7 — billing-mode selection of the table declaration: when both
configured capacity units are positive the properties carry the
`PROVISIONED` billing mode and a throughput block with exactly the
configured numbers; when either is non-positive they carry
`PAY_PER_REQUEST` and no throughput block. -/
theorem c7BillingModeSelection (cfg : Config) (databaseName : Option String) :
    (cfg.API_KEY_TABLE_READ_CAPACITY_UNITS > 0 →
      cfg.API_KEY_TABLE_WRITE_CAPACITY_UNITS > 0 →
      ∃ res, Cloudformation.createApiKeyCapabilityTable cfg databaseName =
          [("ApiKeyCapabilityTable", res)] ∧
        pyLookup res.properties "BillingMode" =
          some (JVal.str "PROVISIONED") ∧
        pyLookup res.properties "ProvisionedThroughput" =
          some (JVal.obj
            [("ReadCapacityUnits",
              JVal.int cfg.API_KEY_TABLE_READ_CAPACITY_UNITS),
             ("WriteCapacityUnits",
              JVal.int cfg.API_KEY_TABLE_WRITE_CAPACITY_UNITS)])) ∧
    ((cfg.API_KEY_TABLE_READ_CAPACITY_UNITS ≤ 0 ∨
      cfg.API_KEY_TABLE_WRITE_CAPACITY_UNITS ≤ 0) →
      ∃ res, Cloudformation.createApiKeyCapabilityTable cfg databaseName =
          [("ApiKeyCapabilityTable", res)] ∧
        pyLookup res.properties "BillingMode" =
          some (JVal.str "PAY_PER_REQUEST") ∧
        pyLookup res.properties "ProvisionedThroughput" = none) := by
  constructor
  · intro hr hw
    cases databaseName with
    | none =>
      simp only [Cloudformation.createApiKeyCapabilityTable]
      rw [if_pos ⟨hr, hw⟩]
      exact ⟨_, rfl, rfl, rfl⟩
    | some n =>
      simp only [Cloudformation.createApiKeyCapabilityTable]
      rw [if_pos ⟨hr, hw⟩]
      exact ⟨_, rfl, rfl, rfl⟩
  · intro hle
    have hneg : ¬ (cfg.API_KEY_TABLE_READ_CAPACITY_UNITS > 0 ∧
        cfg.API_KEY_TABLE_WRITE_CAPACITY_UNITS > 0) := by
      rintro ⟨h1, h2⟩
      rcases hle with h | h <;> omega
    cases databaseName with
    | none =>
      simp only [Cloudformation.createApiKeyCapabilityTable]
      rw [if_neg hneg]
      exact ⟨_, rfl, rfl, rfl⟩
    | some n =>
      simp only [Cloudformation.createApiKeyCapabilityTable]
      rw [if_neg hneg]
      exact ⟨_, rfl, rfl, rfl⟩

/-- Witness for C7 at the default configuration (1/1 capacity units,
provisioned billing) and at a configuration with zero read capacity
(on-demand billing, no throughput block). -/
theorem c7BillingModeSelectionWitness :
    (∃ res, Cloudformation.createApiKeyCapabilityTable defaultConfig
        (some "ApiKeyTable") = [("ApiKeyCapabilityTable", res)] ∧
      pyLookup res.properties "BillingMode" =
        some (JVal.str "PROVISIONED") ∧
      pyLookup res.properties "ProvisionedThroughput" =
        some (JVal.obj [("ReadCapacityUnits", JVal.int 1),
                        ("WriteCapacityUnits", JVal.int 1)])) ∧
    (∃ res, Cloudformation.createApiKeyCapabilityTable
        { defaultConfig with API_KEY_TABLE_READ_CAPACITY_UNITS := 0 }
        (some "ApiKeyTable") = [("ApiKeyCapabilityTable", res)] ∧
      pyLookup res.properties "BillingMode" =
        some (JVal.str "PAY_PER_REQUEST") ∧
      pyLookup res.properties "ProvisionedThroughput" = none) := by
  constructor
  · exact (c7BillingModeSelection defaultConfig (some "ApiKeyTable")).1
      (by decide) (by decide)
  · exact (c7BillingModeSelection
      { defaultConfig with API_KEY_TABLE_READ_CAPACITY_UNITS := 0 }
      (some "ApiKeyTable")).2 (Or.inl (by decide))

/-- C8 (amended) — the DNS Registrar's zone resolution returns the
identifier, path prefix stripped, of the FIRST hosted zone in the
provider's list order whose name suffix-matches the domain; when no zone
matches, the resolution fails and the DNS workflow aborts before any
template resource is constructed. -/
theorem c8DnsZoneResolutionFirstMatch (domainName : String)
    (zones : List AwsDnsSetup.HostedZone) :
    ((∀ z ∈ zones, AwsDnsSetup.isMatchingZone domainName z = false) →
      AwsDnsSetup.checkDnsRegistration domainName zones = none ∧
      AwsDnsSetup.dnsSetupMain domainName zones =
        Except.error
          ("Failed to find matching Route53 entry for " ++ domainName)) ∧
    (∀ (i : Nat) (z : AwsDnsSetup.HostedZone), zones[i]? = some z →
      AwsDnsSetup.isMatchingZone domainName z = true →
      (∀ (j : Nat) (w : AwsDnsSetup.HostedZone), j < i → zones[j]? = some w →
        AwsDnsSetup.isMatchingZone domainName w = false) →
      AwsDnsSetup.checkDnsRegistration domainName zones =
        some ((splitSlash z.Id).getLastD "")) := by
  constructor
  · intro hall
    have hf : zones.find? (AwsDnsSetup.isMatchingZone domainName) = none :=
      List.find?_eq_none.mpr (fun z hz => by simp [hall z hz])
    have h1 : AwsDnsSetup.checkDnsRegistration domainName zones = none := by
      unfold AwsDnsSetup.checkDnsRegistration
      rw [hf]
    refine ⟨h1, ?_⟩
    unfold AwsDnsSetup.dnsSetupMain
    rw [h1]
  · intro i z hi hz hprev
    have hf := find?_eq_some_of_first
      (AwsDnsSetup.isMatchingZone domainName) zones i z hi hz hprev
    unfold AwsDnsSetup.checkDnsRegistration
    rw [hf]

/-- Counterexample for C8 as stated: with the hosted-zone list ordered
broad-zone first, both zones suffix-match the domain, the code returns the
identifier of the FIRST match (the broader `example.com.` zone, `ZBROAD`)
while the most specific matching zone is `test.example.com.` (`ZSPEC`). -/
theorem c8MostSpecificZoneCounterexample :
    AwsDnsSetup.checkDnsRegistration "api.test.example.com"
      [{ Name := "example.com.", Id := "/hostedzone/ZBROAD" },
       { Name := "test.example.com.", Id := "/hostedzone/ZSPEC" }] =
      some "ZBROAD" ∧
    mostSpecificZoneId "api.test.example.com"
      [{ Name := "example.com.", Id := "/hostedzone/ZBROAD" },
       { Name := "test.example.com.", Id := "/hostedzone/ZSPEC" }] =
      some "ZSPEC" ∧
    AwsDnsSetup.checkDnsRegistration "api.test.example.com"
      [{ Name := "example.com.", Id := "/hostedzone/ZBROAD" },
       { Name := "test.example.com.", Id := "/hostedzone/ZSPEC" }] ≠
    mostSpecificZoneId "api.test.example.com"
      [{ Name := "example.com.", Id := "/hostedzone/ZBROAD" },
       { Name := "test.example.com.", Id := "/hostedzone/ZSPEC" }] :=
  ⟨rfl, rfl, by decide⟩

/-- Witness for C8 (amended) at a single-zone list. -/
theorem c8DnsZoneResolutionFirstMatchWitness :
    AwsDnsSetup.checkDnsRegistration "api.zynaptic.com"
      [{ Name := "zynaptic.com.", Id := "/hostedzone/Z42" }] = some "Z42" := by
  have h := (c8DnsZoneResolutionFirstMatch "api.zynaptic.com"
      [{ Name := "zynaptic.com.", Id := "/hostedzone/Z42" }]).2 0
      { Name := "zynaptic.com.", Id := "/hostedzone/Z42" } rfl rfl
      (fun j w hj _ => absurd hj (Nat.not_lt_zero j))
  exact h.trans rfl

theorem resourceId_ne_deployment (x : String) :
    "ApiKeyRestResource" ++ x ≠ "ApiKeyRestGatewayDeployment" := by
  intro hEq
  have hdata : "ApiKeyRestResource".data ++ x.data =
      "ApiKeyRestGatewayDeployment".data := by
    rw [← hEq]
    cases x with
    | mk l => rfl
  have htake := congrArg (List.take "ApiKeyRestResource".data.length) hdata
  rw [List.take_left] at htake
  exact absurd htake (by decide)

theorem createGatewayResourceLoop_mem (h : String → Int) :
    ∀ (segs : List String) (hashSource : String) (parent : JVal)
      (acc : List (String × Resource)) (p : String × Resource),
      p ∈ Cloudformation.createGatewayResourceLoop h segs hashSource parent acc →
      p ∈ acc ∨ ((∃ x, p.1 = "ApiKeyRestResource" ++ x) ∧
        p.2.dependsOn = []) := by
  intro segs
  induction segs with
  | nil =>
    intro hashSource parent acc p hp
    exact Or.inl hp
  | cons seg rest ih =>
    intro hashSource parent acc p hp
    rcases ih _ _ _ p hp with hmem | hres
    · rcases mem_dictSet hmem with h1 | h1
      · exact Or.inl h1
      · refine Or.inr ⟨⟨hexUpper (h (hashSource ++ "/" ++ seg)).natAbs, ?_⟩, ?_⟩
        · rw [h1]
        · rw [h1]
    · exact Or.inr hres

theorem createGatewayResource_mem (h : String → Int) (path : String)
    (out : List (String × Resource))
    (hout : Cloudformation.createGatewayResource h path = Except.ok out)
    (p : String × Resource) (hp : p ∈ out) :
    (∃ x, p.1 = "ApiKeyRestResource" ++ x) ∧ p.2.dependsOn = [] := by
  unfold Cloudformation.createGatewayResource at hout
  by_cases hc : (splitSlash path).headD "" ≠ ""
  · rw [if_pos hc] at hout
    exact Except.noConfusion hout
  · rw [if_neg hc] at hout
    have hEq := Except.ok.inj hout
    rcases createGatewayResourceLoop_mem h _ _ _ _ p
        (by rw [hEq]; exact hp) with h1 | h1
    · exact absurd h1 (List.not_mem_nil p)
    · exact h1

theorem createApiKeyRestGateway_mem (cfg : Config) (h : String → Int)
    (apiGatewayName stagingName : String) (out : List (String × Resource))
    (hout : Cloudformation.createApiKeyRestGateway cfg h apiGatewayName
      stagingName = Except.ok out)
    (p : String × Resource) (hp : p ∈ out) :
    p.2.dependsOn = [] ∧
      (p.1 = "ApiKeyRestGateway" ∨ p.1 = "ApiKeyRestCreateMethod" ∨
       p.1 = "ApiKeyRestAccessMethod" ∨ p.1 = "ApiKeyRestGatewayRole" ∨
       ∃ x, p.1 = "ApiKeyRestResource" ++ x) := by
  cases h1 : Cloudformation.createGatewayResource h
      cfg.RESOURCE_KEY_CREATE_PATH with
  | error e =>
    simp only [Cloudformation.createApiKeyRestGateway, h1] at hout
    exact Except.noConfusion hout
  | ok createResources =>
    cases h2 : Cloudformation.createGatewayResource h
        cfg.RESOURCE_KEY_ACCESS_PATH with
    | error e =>
      simp only [Cloudformation.createApiKeyRestGateway, h1, h2] at hout
      exact Except.noConfusion hout
    | ok accessResources =>
      simp only [Cloudformation.createApiKeyRestGateway, h1, h2] at hout
      have hEq := Except.ok.inj hout
      rw [← hEq] at hp
      rcases mem_dictUpdate hp with hp | hp
      · rcases mem_dictUpdate hp with hp | hp
        · rcases mem_dictUpdate hp with hp | hp
          · rcases mem_dictUpdate hp with hp | hp
            · rcases mem_dictUpdate hp with hp | hp
              · obtain rfl := List.mem_singleton.mp hp
                exact ⟨rfl, Or.inl rfl⟩
              · obtain ⟨hx, hdeps⟩ :=
                  createGatewayResource_mem h _ createResources h1 p hp
                exact ⟨hdeps, Or.inr (Or.inr (Or.inr (Or.inr hx)))⟩
            · obtain ⟨hx, hdeps⟩ :=
                createGatewayResource_mem h _ accessResources h2 p hp
              exact ⟨hdeps, Or.inr (Or.inr (Or.inr (Or.inr hx)))⟩
          · obtain rfl := List.mem_singleton.mp hp
            exact ⟨rfl, Or.inr (Or.inl rfl)⟩
        · obtain rfl := List.mem_singleton.mp hp
          exact ⟨rfl, Or.inr (Or.inr (Or.inl rfl))⟩
      · obtain rfl := List.mem_singleton.mp hp
        exact ⟨rfl, Or.inr (Or.inr (Or.inr (Or.inl rfl)))⟩

theorem templateCore_mem (cfg : Config) (databaseName : Option String)
    (deploymentBucket packageName deploymentStage : String)
    (gatewayResources : List (String × Resource))
    (hgwMem : ∀ q ∈ gatewayResources, q.2.dependsOn = [] ∧
      (q.1 = "ApiKeyRestGateway" ∨ q.1 = "ApiKeyRestCreateMethod" ∨
       q.1 = "ApiKeyRestAccessMethod" ∨ q.1 = "ApiKeyRestGatewayRole" ∨
       ∃ x, q.1 = "ApiKeyRestResource" ++ x))
    (p : String × Resource)
    (hp : p ∈ dictUpdate (dictUpdate (dictUpdate
      (dictUpdate []
        (Cloudformation.createApiKeyCapabilityTable cfg databaseName))
      (Cloudformation.createApiKeyManagementLambda cfg deploymentBucket
        packageName))
      gatewayResources)
      (Cloudformation.createApiGatewayDeployment deploymentStage)) :
    (p.2.dependsOn = [] ∧ p.1 ≠ "ApiKeyRestGatewayDeployment") ∨
    p ∈ Cloudformation.createApiGatewayDeployment deploymentStage := by
  rcases mem_dictUpdate hp with hp | hp
  · rcases mem_dictUpdate hp with hp | hp
    · rcases mem_dictUpdate hp with hp | hp
      · rcases mem_dictUpdate hp with hp | hp
        · exact absurd hp (List.not_mem_nil p)
        · obtain rfl := List.mem_singleton.mp hp
          exact Or.inl ⟨rfl, (by decide :
            ("ApiKeyCapabilityTable" : String) ≠ "ApiKeyRestGatewayDeployment")⟩
      · rcases mem_dictUpdate hp with hp | hp
        · obtain rfl := List.mem_singleton.mp hp
          exact Or.inl ⟨rfl, (by decide :
            ("ApiKeyManagementLambda" : String) ≠ "ApiKeyRestGatewayDeployment")⟩
        · obtain rfl := List.mem_singleton.mp hp
          exact Or.inl ⟨rfl, (by decide :
            ("ApiKeyManagementLambdaRole" : String) ≠
              "ApiKeyRestGatewayDeployment")⟩
    · obtain ⟨hdeps, hkey⟩ := hgwMem p hp
      refine Or.inl ⟨hdeps, ?_⟩
      rcases hkey with hk | hk | hk | hk | ⟨x, hk⟩
      · rw [hk]; decide
      · rw [hk]; decide
      · rw [hk]; decide
      · rw [hk]; decide
      · rw [hk]; exact resourceId_ne_deployment x
  · exact Or.inr hp

theorem createTemplate_mem (cfg : Config) (h : String → Int)
    (databaseName : Option String)
    (deploymentBucket packageName apiGatewayName deploymentStage : String)
    (domainName : Option String) (out : List (String × Resource))
    (hout : Cloudformation.createTemplate cfg h databaseName deploymentBucket
      packageName apiGatewayName deploymentStage domainName = Except.ok out)
    (p : String × Resource) (hp : p ∈ out) :
    (p.2.dependsOn = [] ∧ p.1 ≠ "ApiKeyRestGatewayDeployment") ∨
    p ∈ Cloudformation.createApiGatewayDeployment deploymentStage ∨
    (∃ d, domainName = some d ∧
      p ∈ Cloudformation.createApiCustomDomain cfg d deploymentStage) := by
  cases hgw : Cloudformation.createApiKeyRestGateway cfg h apiGatewayName
      deploymentStage with
  | error e =>
    simp only [Cloudformation.createTemplate, hgw] at hout
    exact Except.noConfusion hout
  | ok gatewayResources =>
    have hgwMem := fun q hq => createApiKeyRestGateway_mem cfg h apiGatewayName
      deploymentStage gatewayResources hgw q hq
    cases domainName with
    | none =>
      simp only [Cloudformation.createTemplate, hgw] at hout
      have hEq := Except.ok.inj hout
      rw [← hEq] at hp
      rcases templateCore_mem cfg databaseName deploymentBucket packageName
          deploymentStage gatewayResources hgwMem p hp with hc | hc
      · exact Or.inl hc
      · exact Or.inr (Or.inl hc)
    | some d =>
      simp only [Cloudformation.createTemplate, hgw] at hout
      have hEq := Except.ok.inj hout
      rw [← hEq] at hp
      rcases mem_dictUpdate hp with hp | hp
      · rcases templateCore_mem cfg databaseName deploymentBucket packageName
            deploymentStage gatewayResources hgwMem p hp with hc | hc
        · exact Or.inl hc
        · exact Or.inr (Or.inl hc)
      · exact Or.inr (Or.inr ⟨d, rfl, hp⟩)

/-- The dependency graph of a template admits a topological order: some
rank function places every resource strictly above each of its
`DependsOn` targets. -/
def topoSortable (tmpl : List (String × Resource)) : Prop :=
  ∃ r : String → Nat, ∀ p ∈ tmpl, ∀ d ∈ p.2.dependsOn, r d < r p.1

/-- A concrete rank witnessing the topological order of every generated
template. -/
def depRank (s : String) : Nat :=
  if s = "ApiKeyRestGatewayMapping" then 2
  else if s = "ApiKeyRestGatewayDeployment" then 1
  else 0

/-- C4 — for every template generated by `createTemplate` the `DependsOn`
graph is acyclic (a topological rank exists), and the deployment-stage
resource is declared with a `DependsOn` list containing both the
key-creation and key-access method resources (existence and uniqueness of
the entry under that identifier). -/
theorem c4DependencyAcyclicity (cfg : Config) (h : String → Int)
    (databaseName : Option String)
    (deploymentBucket packageName apiGatewayName deploymentStage : String)
    (domainName : Option String) (out : List (String × Resource))
    (hout : Cloudformation.createTemplate cfg h databaseName deploymentBucket
      packageName apiGatewayName deploymentStage domainName = Except.ok out) :
    topoSortable out ∧
    (∃ res, ("ApiKeyRestGatewayDeployment", res) ∈ out ∧
      "ApiKeyRestCreateMethod" ∈ res.dependsOn ∧
      "ApiKeyRestAccessMethod" ∈ res.dependsOn) ∧
    (∀ res, ("ApiKeyRestGatewayDeployment", res) ∈ out →
      "ApiKeyRestCreateMethod" ∈ res.dependsOn ∧
      "ApiKeyRestAccessMethod" ∈ res.dependsOn) := by
  refine ⟨⟨depRank, ?_⟩, ?_, ?_⟩
  · intro p hp d hd
    rcases createTemplate_mem cfg h databaseName deploymentBucket packageName
        apiGatewayName deploymentStage domainName out hout p hp with
      ⟨hdeps, -⟩ | hp2 | ⟨dd, -, hp2⟩
    · rw [hdeps] at hd
      exact absurd hd (List.not_mem_nil d)
    · obtain rfl := List.mem_singleton.mp hp2
      rcases List.mem_cons.mp hd with rfl | hd
      · exact (by decide : depRank "ApiKeyRestCreateMethod" <
          depRank "ApiKeyRestGatewayDeployment")
      · rcases List.mem_singleton.mp hd with rfl
        exact (by decide : depRank "ApiKeyRestAccessMethod" <
          depRank "ApiKeyRestGatewayDeployment")
    · obtain rfl := List.mem_singleton.mp hp2
      rcases List.mem_singleton.mp hd with rfl
      exact (by decide : depRank "ApiKeyRestGatewayDeployment" <
        depRank "ApiKeyRestGatewayMapping")
  · cases hgw : Cloudformation.createApiKeyRestGateway cfg h apiGatewayName
        deploymentStage with
    | error e =>
      simp only [Cloudformation.createTemplate, hgw] at hout
      exact Except.noConfusion hout
    | ok gatewayResources =>
      cases domainName with
      | none =>
        simp only [Cloudformation.createTemplate, hgw] at hout
        have hEq := Except.ok.inj hout
        refine ⟨Cloudformation.apiGatewayDeploymentResource deploymentStage,
          ?_, by simp [Cloudformation.apiGatewayDeploymentResource],
          by simp [Cloudformation.apiGatewayDeploymentResource]⟩
        rw [← hEq]
        exact mem_dictSet_self _ _ _
      | some d =>
        simp only [Cloudformation.createTemplate, hgw] at hout
        have hEq := Except.ok.inj hout
        refine ⟨Cloudformation.apiGatewayDeploymentResource deploymentStage,
          ?_, by simp [Cloudformation.apiGatewayDeploymentResource],
          by simp [Cloudformation.apiGatewayDeploymentResource]⟩
        rw [← hEq]
        refine mem_dictSet_of_ne (mem_dictSet_self _ _ _) ?_ _
        exact (by decide : ("ApiKeyRestGatewayDeployment" : String) ≠
          "ApiKeyRestGatewayMapping")
  · intro res hres
    rcases createTemplate_mem cfg h databaseName deploymentBucket packageName
        apiGatewayName deploymentStage domainName out hout
        ("ApiKeyRestGatewayDeployment", res) hres with
      ⟨-, hne⟩ | hp2 | ⟨dd, -, hp2⟩
    · exact absurd rfl hne
    · have h3 := List.mem_singleton.mp hp2
      have h4 : res = Cloudformation.apiGatewayDeploymentResource
          deploymentStage := congrArg Prod.snd h3
      rw [h4]
      exact ⟨by simp [Cloudformation.apiGatewayDeploymentResource],
        by simp [Cloudformation.apiGatewayDeploymentResource]⟩
    · have h3 := List.mem_singleton.mp hp2
      have h4 := congrArg Prod.fst h3
      exact absurd h4 ((by decide :
        ("ApiKeyRestGatewayDeployment" : String) ≠ "ApiKeyRestGatewayMapping"))

/-- A concrete generated template used to witness C4 (default
configuration, hash environment constantly 0, production stage, no custom
domain). -/
def sampleTemplate : List (String × Resource) :=
  (Cloudformation.createTemplate defaultConfig (fun _ => 0)
    (some "ApiKeyTable") "com-zynaptic-aws-deployment"
    "aws-api-key-manager-1.0.0.jar" "ApiKeyManager" "production"
    none).toOption.getD []

/-- Witness for C4 at a concrete generated template. -/
theorem c4DependencyAcyclicityWitness :
    topoSortable sampleTemplate ∧
    (∃ res, ("ApiKeyRestGatewayDeployment", res) ∈ sampleTemplate ∧
      "ApiKeyRestCreateMethod" ∈ res.dependsOn ∧
      "ApiKeyRestAccessMethod" ∈ res.dependsOn) ∧
    (∀ res, ("ApiKeyRestGatewayDeployment", res) ∈ sampleTemplate →
      "ApiKeyRestCreateMethod" ∈ res.dependsOn ∧
      "ApiKeyRestAccessMethod" ∈ res.dependsOn) :=
  c4DependencyAcyclicity defaultConfig (fun _ => 0) (some "ApiKeyTable")
    "com-zynaptic-aws-deployment" "aws-api-key-manager-1.0.0.jar"
    "ApiKeyManager" "production" none sampleTemplate rfl

end AwsApiKeyManager
